import Mathlib

/-!
Verification development for the AnnotatePDF editor
(`src/app/page.tsx`, `src/components/pdf-viewer.tsx`, `src/types/index.ts`).

Numbers are modelled by `ℚ` (the code computes with IEEE doubles; all
claims are stated over exact arithmetic). Fallible parsing returns
`Option`. Names follow the source where the identifier is usable here;
the record type for the `Annotation` tagged union is called `Anno`.
-/

namespace PdfEditor

/-! ### JavaScript primitive models -/

/-- Digit-list to natural number, most significant first. -/
def digitsToNat (ds : List Char) : Nat :=
  ds.foldl (fun n c => 10 * n + (c.toNat - 48)) 0

/-- The syntactic pieces JavaScript `parseFloat` consumes from a string:
sign, integer digits, fraction digits, exponent sign and digits. -/
structure FloatParts where
  neg : Bool
  ip : List Char
  fp : List Char
  eneg : Bool
  ed : List Char
  deriving DecidableEq, Repr

/-- The scanning stage of JavaScript `parseFloat`: skip leading
whitespace, optional sign, longest prefix `digits [. digits]
[e [sign] digits]`. -/
def parseFloatParts (s : String) : FloatParts :=
  let cs := s.data.dropWhile (fun c => c == ' ' || c == '\t' || c == '\n' || c == '\r')
  let signAndRest : Bool × List Char :=
    match cs with
    | '-' :: rest => (true, rest)
    | '+' :: rest => (false, rest)
    | _ => (false, cs)
  let ip := signAndRest.2.takeWhile Char.isDigit
  let cs2 := signAndRest.2.dropWhile Char.isDigit
  let fracAndRest : List Char × List Char :=
    match cs2 with
    | '.' :: rest => (rest.takeWhile Char.isDigit, rest.dropWhile Char.isDigit)
    | _ => ([], cs2)
  let expPart : Bool × List Char :=
    match fracAndRest.2 with
    | c :: rest =>
      if c == 'e' || c == 'E' then
        match rest with
        | '-' :: r => (true, r.takeWhile Char.isDigit)
        | '+' :: r => (false, r.takeWhile Char.isDigit)
        | r => (false, r.takeWhile Char.isDigit)
      else (false, [])
    | [] => (false, [])
  { neg := signAndRest.1, ip := ip, fp := fracAndRest.1
    eneg := expPart.1, ed := expPart.2 }

/-- The numeric stage of `parseFloat`: `none` (JS `NaN`) when no digits
were consumed, otherwise the signed mantissa scaled by the exponent. -/
def floatValue? (t : FloatParts) : Option ℚ :=
  if t.ip.isEmpty && t.fp.isEmpty then none
  else
    let mantissa : ℚ := (digitsToNat t.ip : ℚ) + (digitsToNat t.fp : ℚ) / (10 ^ t.fp.length)
    let e : ℤ :=
      if t.ed.isEmpty then 0
      else if t.eneg then -(digitsToNat t.ed : ℤ) else (digitsToNat t.ed : ℤ)
    let v := mantissa * (10 : ℚ) ^ e
    some (if t.neg then -v else v)

/-- Model of JavaScript `parseFloat`. Returns `none` where JS returns
`NaN`. The `Infinity` literal is not modelled (never produced by this
program). -/
def parseFloat? (s : String) : Option ℚ :=
  floatValue? (parseFloatParts s)

/-- Model of JavaScript `String.prototype.endsWith`. -/
def strEndsWith (s suffix : String) : Bool :=
  suffix.data.isSuffixOf s.data

/-- Model of JavaScript `String.prototype.startsWith`. -/
def strStartsWith (s pre : String) : Bool :=
  pre.data.isPrefixOf s.data

/-- Model of JavaScript `%` on numbers (truncated remainder):
`a - b * trunc (a / b)`. -/
def jsMod (a b : ℚ) : ℚ :=
  a - b * (if 0 ≤ a / b then (⌊a / b⌋ : ℚ) else (⌈a / b⌉ : ℚ))

/-- Model of JavaScript `Number.prototype.toFixed(2)`: round to the
nearest hundredth (ties toward the larger value, per the ES spec) and
print with exactly two decimals. -/
def toFixed2 (q : ℚ) : String :=
  let n : ℤ := round (q * 100)
  let sign := if n < 0 then "-" else ""
  let m := n.natAbs
  let ip := m / 100
  let fp := m % 100
  sign ++ toString ip ++ "." ++ (if fp < 10 then "0" else "") ++ toString fp

/-- Model of JavaScript `String.prototype.includes`: substring test. -/
def containsSub (s sub : String) : Bool :=
  s.data.tails.any (fun t => sub.data.isPrefixOf t)

/-! ### Data model (`src/types/index.ts`)

The `Annotation` tagged union: common base fields plus a `text` or
`image` variant. Image `width`/`height` are suffix-tagged dimension
strings (the form the running code constructs and parses). -/

/-- Fields specific to the `text` variant. -/
structure TextFields where
  text : String
  fontSize : ℚ
  fontFamily : String
  color : String
  width : ℚ
  height : ℚ
  deriving DecidableEq, Repr

/-- Fields specific to the `image` variant. -/
structure ImageFields where
  src : String
  alt : String
  width : String
  height : String
  deriving DecidableEq, Repr

/-- The discriminated variant payload of the `Annotation` union. -/
inductive AnnoVariant where
  | text (f : TextFields)
  | image (f : ImageFields)
  deriving DecidableEq, Repr

/-- An `Annotation` record (base fields + variant payload). -/
structure Anno where
  id : String
  page : Nat
  x : ℚ
  y : ℚ
  rotation : ℚ
  variant : AnnoVariant
  deriving DecidableEq, Repr

/-- The piece of page-level state the claims touch: the ordered
collection plus the current selection (`annotations`,
`selectedAnnotationId` in `page.tsx`). -/
structure AppState where
  annos : List Anno
  selectedId : Option String
  deriving DecidableEq, Repr

/-! ### Annotation store operations (`src/app/page.tsx`) -/

/-- Embeds `updateAnnotation` (page.tsx 50-54): map over the list, replacing the
element whose `id` matches the updated record. -/
def updateAnno (annos : List Anno) (updated : Anno) : List Anno :=
  annos.map (fun anno => if anno.id = updated.id then updated else anno)

/-- Embeds `deleteAnnotation` (page.tsx 56-61): filter out the id; clear the
selection when it pointed at the deleted id. -/
def deleteAnno (s : AppState) (id : String) : AppState :=
  { annos := s.annos.filter (fun anno => anno.id ≠ id)
    selectedId := if s.selectedId = some id then none else s.selectedId }

/-- Embeds `addAnnotation` (page.tsx 42-48): append and select the new record
(the caller supplies the generated id on the record). -/
def addAnno (s : AppState) (a : Anno) : AppState :=
  { annos := s.annos ++ [a], selectedId := some a.id }

/-! ### Interaction state machine (`src/components/pdf-viewer.tsx`) -/

/-- The drag grab offset captured by `handleAnnotationMouseDown`
(pdf-viewer.tsx 196-217): pointer-down position in canvas percentage
space minus the annotation's top-left corner. -/
structure DragOffset where
  x : ℚ
  y : ℚ
  deriving DecidableEq, Repr

/-- Embeds the `setDragStartOffset` value at pointer-down (pdf-viewer.tsx 209-215). -/
def dragStartOffsetOf (a : Anno) (clientX clientY rectLeft rectTop rectW rectH : ℚ) :
    DragOffset :=
  { x := (clientX - rectLeft) / rectW * 100 - a.x
    y := (clientY - rectTop) / rectH * 100 - a.y }

/-- Embeds `handleDragMove` (pdf-viewer.tsx 219-241): recompute `x`,`y` from the
pointer and the grab offset, clamping each axis to `[0, 99.9]`. -/
def handleDragMove (cur : Anno) (off : DragOffset)
    (clientX clientY rectLeft rectTop rectW rectH : ℚ) : Anno :=
  let newX0 := (clientX - rectLeft) / rectW * 100 - off.x
  let newY0 := (clientY - rectTop) / rectH * 100 - off.y
  { cur with x := max 0 (min newX0 99.9), y := max 0 (min newY0 99.9) }

/-- The four corner resize handles (`ResizeHandleType`). -/
inductive ResizeHandleType where
  | topLeft
  | topRight
  | bottomLeft
  | bottomRight
  deriving DecidableEq, Repr

/-- The handle's name string, as used by `handle.includes(...)`. -/
def ResizeHandleType.name : ResizeHandleType → String
  | .topLeft => "topLeft"
  | .topRight => "topRight"
  | .bottomLeft => "bottomLeft"
  | .bottomRight => "bottomRight"

/-- Evaluates `handle.includes('Right')`. -/
def ResizeHandleType.hasRight (h : ResizeHandleType) : Bool :=
  containsSub h.name "Right"

/-- Evaluates `handle.includes('Left')`. -/
def ResizeHandleType.hasLeft (h : ResizeHandleType) : Bool :=
  containsSub h.name "Left"

/-- Evaluates `handle.includes('bottom')`. -/
def ResizeHandleType.hasBottom (h : ResizeHandleType) : Bool :=
  containsSub h.name "bottom"

/-- Evaluates `handle.includes('top')`. -/
def ResizeHandleType.hasTop (h : ResizeHandleType) : Bool :=
  containsSub h.name "top"

/-- The snapshot captured by `handleResizeMouseDown` (pdf-viewer.tsx
250-276): handle, page extent, pointer-down client position, the
annotation's live pixel box, and its starting percentages. -/
structure ResizeState where
  handle : ResizeHandleType
  initialPageW : ℚ
  initialPageH : ℚ
  startX : ℚ
  startY : ℚ
  initialPixelWidth : ℚ
  initialPixelHeight : ℚ
  initialXPercent : ℚ
  initialYPercent : ℚ
  deriving DecidableEq, Repr

/-- Embeds `handleResizeMouseMove` (pdf-viewer.tsx 278-344): grow/shrink the
pixel box by the pointer delta according to the handle, shift `x`/`y`
for left/top handles, floor both axes at 20px, re-clamp `x`/`y` so the
far edge stays within `99.9%`, and write width/height back as
`toFixed(2)` percent strings. Resize is only started on image
annotations (handles are only rendered for them); a text variant's
payload is returned unchanged. -/
def handleResizeMouseMove (st : ResizeState) (clientX clientY : ℚ) (cur : Anno) : Anno :=
  let deltaX := clientX - st.startX
  let deltaY := clientY - st.startY
  let wRight := if st.handle.hasRight then st.initialPixelWidth + deltaX
                else st.initialPixelWidth
  let wLeft := if st.handle.hasLeft then st.initialPixelWidth - deltaX else wRight
  let xShift := if st.handle.hasLeft then
                  st.initialXPercent + deltaX / st.initialPageW * 100
                else st.initialXPercent
  let hBottom := if st.handle.hasBottom then st.initialPixelHeight + deltaY
                 else st.initialPixelHeight
  let hTop := if st.handle.hasTop then st.initialPixelHeight - deltaY else hBottom
  let yShift := if st.handle.hasTop then
                  st.initialYPercent + deltaY / st.initialPageH * 100
                else st.initialYPercent
  let newPixelWidth := max wLeft 20
  let newPixelHeight := max hTop 20
  let newXPercent :=
    max 0 (min xShift (99.9 - newPixelWidth / st.initialPageW * 100))
  let newYPercent :=
    max 0 (min yShift (99.9 - newPixelHeight / st.initialPageH * 100))
  let finalWidthPercent := newPixelWidth / st.initialPageW * 100
  let finalHeightPercent := newPixelHeight / st.initialPageH * 100
  { cur with
    x := newXPercent
    y := newYPercent
    variant :=
      match cur.variant with
      | .image f => .image { f with
          width := toFixed2 finalWidthPercent ++ "%"
          height := toFixed2 finalHeightPercent ++ "%" }
      | v => v }

/-- The active placement tool (`selectedTool`). -/
inductive Tool where
  | text
  | image
  deriving DecidableEq, Repr

/-- The text record built by a placement click (pdf-viewer.tsx 397-411):
click position clamped to `[0, 99.9]` per axis, `width = 20`,
`height = 5`, `fontSize = 12`, `rotation = 0`. -/
def defaultTextRecord (newId : String) (curPage : Nat) (xPercent yPercent : ℚ) : Anno :=
  { id := newId, page := curPage
    x := max 0 (min xPercent 99.9)
    y := max 0 (min yPercent 99.9)
    rotation := 0
    variant := .text
      { text := "New Text", fontSize := 12, fontFamily := "PT Sans"
        color := "#000000", width := 20, height := 5 } }

/-- The image record built by a placement click (pdf-viewer.tsx
412-437): click position clamped to `[0, 99.9]` per axis,
`width = "25%"`, `height = "15%"`, `rotation = 0`. -/
def defaultImageRecord (newId : String) (curPage : Nat) (xPercent yPercent : ℚ)
    (imgSrc : String) : Anno :=
  { id := newId, page := curPage
    x := max 0 (min xPercent 99.9)
    y := max 0 (min yPercent 99.9)
    rotation := 0
    variant := .image
      { src := imgSrc, alt := "User image", width := "25%", height := "15%" } }

/-- Embeds `handleViewerClick` (pdf-viewer.tsx 373-439), the placement path:
with a tool active and a rendered page, convert the click to canvas
percentages, reject it outside `[0,100]` on either axis, and otherwise
build the new record with the default geometry (the id is generated by
`addAnnotation`; the image source arrives via the file picker — both
are parameters here). Returns the record to add, or `none`. -/
def handleViewerClick (tool : Option Tool)
    (clientX clientY rectLeft rectTop pageW pageH : ℚ)
    (curPage : Nat) (newId : String) (imgSrc : String) : Option Anno :=
  if tool.isNone ∨ pageW = 0 ∨ pageH = 0 then none
  else
    let xPercent := (clientX - rectLeft) / pageW * 100
    let yPercent := (clientY - rectTop) / pageH * 100
    if xPercent < 0 ∨ xPercent > 100 ∨ yPercent < 0 ∨ yPercent > 100 then none
    else
      match tool with
      | none => none
      | some .text => some (defaultTextRecord newId curPage xPercent yPercent)
      | some .image => some (defaultImageRecord newId curPage xPercent yPercent imgSrc)

/-- The store effect of a placement click: `onAnnotationAdd` feeds
`addAnnotation`; a rejected click leaves the state unchanged. -/
def placeClick (s : AppState) (tool : Option Tool)
    (clientX clientY rectLeft rectTop pageW pageH : ℚ)
    (curPage : Nat) (newId : String) (imgSrc : String) : AppState :=
  match handleViewerClick tool clientX clientY rectLeft rectTop pageW pageH curPage newId imgSrc with
  | none => s
  | some a => addAnno s a

/-- Rotation direction of the toolbar buttons. -/
inductive RotDirection where
  | cw
  | ccw
  deriving DecidableEq, Repr

/-- The arithmetic of `handleAnnotationRotation` (page.tsx 204-212):
`(r + 15) % 360` clockwise, `(r - 15 + 360) % 360` counter-clockwise,
with JavaScript `%`. (`rotation || 0` is the identity on `ℚ`.) -/
def rotationStep (direction : RotDirection) (currentRotation : ℚ) : ℚ :=
  match direction with
  | .cw => jsMod (currentRotation + 15) 360
  | .ccw => jsMod (currentRotation - 15 + 360) 360

/-- Embeds `handleAnnotationRotation` on the page state: rotate the currently
selected annotation, if any, through `updateAnnotation`. -/
def handleAnnoRotation (s : AppState) (direction : RotDirection) : AppState :=
  match s.selectedId with
  | none => s
  | some id =>
    match s.annos.find? (fun a => a.id = id) with
    | none => s
    | some a =>
      { s with annos := updateAnno s.annos { a with rotation := rotationStep direction a.rotation } }

/-! ### Export transform (`handleDownload`, page.tsx 63-202) -/

/-- Image width resolution (page.tsx 110-128). Returns the resolved
width in points together with whether the unsupported-unit warning
toast fired. -/
def processImgWidth (w : String) (pageWidth : ℚ) : ℚ × Bool :=
  if strEndsWith w "%" then
    match parseFloat? w with
    | none => (25 / 100 * pageWidth, false)
    | some num => (num / 100 * pageWidth, false)
  else if strEndsWith w "px" then
    match parseFloat? w with
    | none => (100, false)
    | some num => (num, false)
  else if strEndsWith w "pt" then
    match parseFloat? w with
    | none => (100, false)
    | some num => (num, false)
  else if strEndsWith w "em" then
    match parseFloat? w with
    | none => (100, false)
    | some num => (num * 12, false)
  else
    match parseFloat? w with
    | some num => (num, false)
    | none => (25 / 100 * pageWidth, true)

/-- Image height resolution (page.tsx 130-148), mirror of the width path
with the `15%` / `75` defaults. -/
def processImgHeight (h : String) (pageHeight : ℚ) : ℚ × Bool :=
  if strEndsWith h "%" then
    match parseFloat? h with
    | none => (15 / 100 * pageHeight, false)
    | some num => (num / 100 * pageHeight, false)
  else if strEndsWith h "px" then
    match parseFloat? h with
    | none => (75, false)
    | some num => (num, false)
  else if strEndsWith h "pt" then
    match parseFloat? h with
    | none => (75, false)
    | some num => (num, false)
  else if strEndsWith h "em" then
    match parseFloat? h with
    | none => (75, false)
    | some num => (num * 12, false)
  else
    match parseFloat? h with
    | some num => (num, false)
    | none => (15 / 100 * pageHeight, true)

/-- Embeds `annoYBase` (page.tsx 79): the Y-down offset in points. -/
def annoYBase (a : Anno) (pageHeight : ℚ) : ℚ :=
  a.y / 100 * pageHeight

/-- The height the export uses to flip the Y axis: the unit-parsed height
for images (page.tsx 130-148), the `fontSize * 1.5` nominal height for
text (page.tsx 91). -/
def resolvedExportHeight (a : Anno) (pageHeight : ℚ) : ℚ :=
  match a.variant with
  | .text f => f.fontSize * 1.5
  | .image f => (processImgHeight f.height pageHeight).1

/-- The flipped, bottom-left-origin Y (`annoTextY` page.tsx 92,
`annoImgY` page.tsx 150): `pageHeight - annoYBase - resolvedHeight`. -/
def flippedExportY (a : Anno) (pageHeight : ℚ) : ℚ :=
  pageHeight - annoYBase a pageHeight - resolvedExportHeight a pageHeight

/-- Hex digit value, as accepted by `parseInt(-, 16)`. -/
def hexVal? (c : Char) : Option Nat :=
  if c.isDigit then some (c.toNat - 48)
  else if 'a' ≤ c && c ≤ 'f' then some (c.toNat - 87)
  else if 'A' ≤ c && c ≤ 'F' then some (c.toNat - 55)
  else none

/-- Model of `parseInt(s, 16)`: value of the longest hex-digit prefix,
`none` where JS yields `NaN`. -/
def parseIntHex? (s : String) : Option Nat :=
  let ds := s.data.takeWhile (fun c => (hexVal? c).isSome)
  if ds.isEmpty then none
  else some (ds.foldl (fun n c => 16 * n + (hexVal? c).getD 0) 0)

/-- Evaluates `colorString.substring(i, i+2)`. -/
def sub2 (s : String) (i : Nat) : String :=
  ⟨(s.data.drop i).take 2⟩

/-- One color channel (page.tsx 84-86): `parseInt(pair, 16) / 255`.
A malformed pair gives `NaN` in JS (`none` here); `pdf-lib`'s `rgb`
then throws, outside any inner `try`, failing the whole export — see
`perAnnoExport`. -/
def colorChannel? (colorString : String) (i : Nat) : Option ℚ :=
  (parseIntHex? (sub2 colorString i)).map (fun n => (n : ℚ) / 255)

/-- The two image codecs `handleDownload` can embed. -/
inductive ImgFormat where
  | png
  | jpeg
  deriving DecidableEq, Repr

/-- Format sniffing from the locator string (page.tsx 165-173):
`src.includes('png')`, else `'jpeg'`/`'jpg'`, else unsupported. -/
def sniffImgFormat (src : String) : Option ImgFormat :=
  if containsSub src "png" then some ImgFormat.png
  else if containsSub src "jpeg" || containsSub src "jpg" then some ImgFormat.jpeg
  else none

/-- One draw instruction handed to the output writer
(`page.drawText` / `page.drawImage`). -/
inductive DrawInstr where
  | drawText (content : String) (x y size r g b lineHeight maxWidth rot : ℚ)
  | drawImage (src : String) (x y w h rot : ℚ)
  deriving DecidableEq, Repr

/-- A reported per-annotation export condition (a warning/error toast). -/
inductive ExportWarn where
  | widthUnit (id : String)
  | heightUnit (id : String)
  | unsupportedType (id : String)
  | embedFail (id : String)
  deriving DecidableEq, Repr

/-- A throw that escapes the per-annotation loop body and lands in
`handleDownload`'s outer `catch`, failing the whole export ("Download
Failed", no output). The one such throw the loop itself can raise is
`rgb(NaN, ...)` on a malformed text color (page.tsx 84-100), which sits
outside the image branch's inner `try`. -/
inductive ExportAbort where
  | colorNaN (id : String)
  deriving DecidableEq, Repr

/-- The image branch of the export loop body (page.tsx 105-186).
`fetchOk` models whether the payload fetch/decode succeeds and `embedOk`
whether `embedPng`/`embedJpg` succeeds (both are external effects); a
`false` lands in the inner `catch` and skips the annotation with a
report, as does an unsupported sniffed format — this branch never
escalates past the annotation. Returns the draw instruction (if any)
and the reported conditions, in program order. -/
def perImageExport (fetchOk embedOk : String → Bool) (pageW pageH : ℚ)
    (a : Anno) (f : ImageFields) : Option DrawInstr × List ExportWarn :=
  let annoX := a.x / 100 * pageW
  let wRes := processImgWidth f.width pageW
  let hRes := processImgHeight f.height pageH
  let warns := (if wRes.2 then [ExportWarn.widthUnit a.id] else [])
            ++ (if hRes.2 then [ExportWarn.heightUnit a.id] else [])
  let annoImgY := flippedExportY a pageH
  if fetchOk f.src then
    match sniffImgFormat f.src with
    | none => (none, warns ++ [ExportWarn.unsupportedType a.id])
    | some _ =>
      if embedOk f.src then
        (some (.drawImage f.src annoX annoImgY wRes.1 hRes.1 a.rotation), warns)
      else (none, warns ++ [ExportWarn.embedFail a.id])
  else (none, warns ++ [ExportWarn.embedFail a.id])

/-- The per-annotation body of the export loop (page.tsx 74-187). The
text branch parses the color and draws; if any channel is `NaN`,
`rgb` throws outside any inner `try` and the whole export aborts
(`Except.error`). The image branch recovers locally
(`perImageExport`). -/
def perAnnoExport (fetchOk embedOk : String → Bool) (pageW pageH : ℚ) (a : Anno) :
    Except ExportAbort (Option DrawInstr × List ExportWarn) :=
  let annoX := a.x / 100 * pageW
  match a.variant with
  | .text f =>
    let colorString := if strStartsWith f.color "#" then (⟨f.color.data.drop 1⟩ : String) else f.color
    match colorChannel? colorString 0, colorChannel? colorString 2, colorChannel? colorString 4 with
    | some r, some g, some b =>
      let annoTextWidth := f.width / 100 * pageW
      let nominalTextHeightForYCalc := f.fontSize * 1.5
      let annoTextY := flippedExportY a pageH
      .ok (some (.drawText f.text annoX (annoTextY + nominalTextHeightForYCalc - f.fontSize)
        f.fontSize r g b (f.fontSize * 1.2) annoTextWidth a.rotation), [])
    | _, _, _ => .error (.colorNaN a.id)
  | .image f => .ok (perImageExport fetchOk embedOk pageW pageH a f)

/-- The export loop over the annotation list (page.tsx 74-187).
`pageSize` gives each page's point size (`page.getSize()`; the §3
invariant that `page` is a valid index is assumed, so page lookup does
not fail). Produces all draw instructions and all reports, in order;
an abort from any annotation (a `rgb(NaN)` throw) fails the whole
export and nothing is produced. -/
def exportAnnos (fetchOk embedOk : String → Bool) (pageSize : Nat → ℚ × ℚ) :
    List Anno → Except ExportAbort (List DrawInstr × List ExportWarn)
  | [] => .ok ([], [])
  | a :: rest =>
    let sz := pageSize a.page
    match perAnnoExport fetchOk embedOk sz.1 sz.2 a with
    | .error e => .error e
    | .ok head =>
      match exportAnnos fetchOk embedOk pageSize rest with
      | .error e => .error e
      | .ok tail => .ok (head.1.toList ++ tail.1, head.2 ++ tail.2)

/-! ### Helper lemmas -/

/-- For nonnegative dividend and positive divisor, the JS remainder is
the scaled fractional part of the quotient. -/
theorem jsMod_eq_fract (a b : ℚ) (ha : 0 ≤ a) (hb : 0 < b) :
    jsMod a b = b * Int.fract (a / b) := by
  unfold jsMod
  rw [if_pos (div_nonneg ha hb.le), Int.fract]
  field_simp

/-- Range of the JS remainder for nonnegative dividend, positive divisor. -/
theorem jsMod_bounds (a b : ℚ) (ha : 0 ≤ a) (hb : 0 < b) :
    0 ≤ jsMod a b ∧ jsMod a b < b := by
  rw [jsMod_eq_fract a b ha hb]
  constructor
  · exact mul_nonneg hb.le (Int.fract_nonneg _)
  · calc b * Int.fract (a / b) < b * 1 :=
        mul_lt_mul_of_pos_left (Int.fract_lt_one _) hb
    _ = b := mul_one b

/-! ### Claims -/

/-- C1: for every annotation and page height, the export transform's
flipped, bottom-left-origin Y plus the resolved height plus the Y-down
offset `(y/100)·H` recovers the page height exactly; the resolved
height is the unit-parsed height for images and the
`fontSize`-derived nominal height for text. -/
theorem c1_flippedY_roundtrip (a : Anno) (pageH : ℚ) :
    flippedExportY a pageH + resolvedExportHeight a pageH + a.y / 100 * pageH = pageH ∧
    (∀ f, a.variant = AnnoVariant.image f →
      resolvedExportHeight a pageH = (processImgHeight f.height pageH).1) ∧
    (∀ f, a.variant = AnnoVariant.text f →
      resolvedExportHeight a pageH = f.fontSize * 1.5) := by
  refine ⟨?_, ?_, ?_⟩
  · unfold flippedExportY annoYBase
    ring
  · intro f hf
    simp [resolvedExportHeight, hf]
  · intro f hf
    simp [resolvedExportHeight, hf]

/-- Witness for C1 at a concrete image annotation on a 400-point page. -/
theorem c1_flippedY_roundtrip_witness :
    flippedExportY (⟨"w", 1, 10, 10, 0, AnnoVariant.image ⟨"s", "", "20%", "5%"⟩⟩ : Anno) 400
        + resolvedExportHeight (⟨"w", 1, 10, 10, 0, AnnoVariant.image ⟨"s", "", "20%", "5%"⟩⟩ : Anno) 400
        + (10 : ℚ) / 100 * 400 = 400 ∧
    resolvedExportHeight (⟨"w", 1, 10, 10, 0, AnnoVariant.image ⟨"s", "", "20%", "5%"⟩⟩ : Anno) 400
        = (processImgHeight "5%" 400).1 :=
  ⟨(c1_flippedY_roundtrip _ 400).1,
   (c1_flippedY_roundtrip (⟨"w", 1, 10, 10, 0, AnnoVariant.image ⟨"s", "", "20%", "5%"⟩⟩ : Anno) 400).2.1
     ⟨"s", "", "20%", "5%"⟩ rfl⟩

/-- C6: for a rotation `r ∈ [0, 360)`, a clockwise step is
`(r + 15) % 360`, a counter-clockwise step is `(r - 15 + 360) % 360`,
both results stay in `[0, 360)`, and in particular `350 → 5` clockwise
and `5 → 350` counter-clockwise. -/
theorem c6_rotation_wrap (r : ℚ) (h0 : 0 ≤ r) (h1 : r < 360) :
    rotationStep RotDirection.cw r = jsMod (r + 15) 360 ∧
    rotationStep RotDirection.ccw r = jsMod (r - 15 + 360) 360 ∧
    (0 ≤ rotationStep RotDirection.cw r ∧ rotationStep RotDirection.cw r < 360) ∧
    (0 ≤ rotationStep RotDirection.ccw r ∧ rotationStep RotDirection.ccw r < 360) ∧
    rotationStep RotDirection.cw 350 = 5 ∧
    rotationStep RotDirection.ccw 5 = 350 := by
  refine ⟨rfl, rfl, ?_, ?_, by norm_num [rotationStep, jsMod, Int.floor_eq_iff],
    by norm_num [rotationStep, jsMod, Int.floor_eq_iff]⟩
  · exact jsMod_bounds (r + 15) 360 (by linarith) (by norm_num)
  · exact jsMod_bounds (r - 15 + 360) 360 (by linarith) (by norm_num)

/-- Witness for C6 at `r = 90`. -/
theorem c6_rotation_wrap_witness :
    rotationStep RotDirection.cw 90 = jsMod (90 + 15) 360 ∧
    rotationStep RotDirection.ccw 90 = jsMod (90 - 15 + 360) 360 ∧
    (0 ≤ rotationStep RotDirection.cw 90 ∧ rotationStep RotDirection.cw (90 : ℚ) < 360) ∧
    (0 ≤ rotationStep RotDirection.ccw 90 ∧ rotationStep RotDirection.ccw (90 : ℚ) < 360) ∧
    rotationStep RotDirection.cw 350 = 5 ∧
    rotationStep RotDirection.ccw 5 = 350 :=
  c6_rotation_wrap 90 (by norm_num) (by norm_num)

/-- C9: deleting by id keeps exactly the annotations with a different id
(in order), clears the selection when it pointed at the deleted id,
leaves it alone otherwise, and when the id occurs exactly once the
result is the list with exactly that element removed. -/
theorem c9_deleteAnno_spec (s : AppState) (id : String) :
    (∀ a, a ∈ (deleteAnno s id).annos ↔ a ∈ s.annos ∧ a.id ≠ id) ∧
    (deleteAnno s id).annos.Sublist s.annos ∧
    (s.selectedId = some id → (deleteAnno s id).selectedId = none) ∧
    (s.selectedId ≠ some id → (deleteAnno s id).selectedId = s.selectedId) ∧
    (∀ pre a post, s.annos = pre ++ a :: post → a.id = id →
      (∀ b ∈ pre, b.id ≠ id) → (∀ b ∈ post, b.id ≠ id) →
      (deleteAnno s id).annos = pre ++ post) := by
  refine ⟨?_, ?_, ?_, ?_, ?_⟩
  · intro a
    simp [deleteAnno]
  · exact List.filter_sublist _
  · intro h
    simp [deleteAnno, h]
  · intro h
    simp [deleteAnno, h]
  · intro pre a post hs ha hpre hpost
    simp only [deleteAnno, hs, List.filter_append, List.filter_cons]
    rw [if_neg (by simp [ha])]
    rw [List.filter_eq_self.mpr (by intro b hb; simpa using hpre b hb),
        List.filter_eq_self.mpr (by intro b hb; simpa using hpost b hb)]

/-- Witness for C9: deleting the selected annotation `"b"` from a
two-element store. -/
theorem c9_deleteAnno_spec_witness :
    (deleteAnno
        { annos := [⟨"a", 1, 1, 1, 0, AnnoVariant.text ⟨"t", 12, "PT Sans", "#000000", 20, 5⟩⟩,
                    ⟨"b", 1, 2, 2, 0, AnnoVariant.text ⟨"u", 12, "PT Sans", "#000000", 20, 5⟩⟩]
          selectedId := some "b" } "b").selectedId = none ∧
    (deleteAnno
        { annos := [⟨"a", 1, 1, 1, 0, AnnoVariant.text ⟨"t", 12, "PT Sans", "#000000", 20, 5⟩⟩,
                    ⟨"b", 1, 2, 2, 0, AnnoVariant.text ⟨"u", 12, "PT Sans", "#000000", 20, 5⟩⟩]
          selectedId := some "b" } "b").annos
      = [⟨"a", 1, 1, 1, 0, AnnoVariant.text ⟨"t", 12, "PT Sans", "#000000", 20, 5⟩⟩] :=
  ⟨(c9_deleteAnno_spec _ "b").2.2.1 rfl,
   (c9_deleteAnno_spec _ "b").2.2.2.2
     [⟨"a", 1, 1, 1, 0, AnnoVariant.text ⟨"t", 12, "PT Sans", "#000000", 20, 5⟩⟩]
     ⟨"b", 1, 2, 2, 0, AnnoVariant.text ⟨"u", 12, "PT Sans", "#000000", 20, 5⟩⟩
     [] rfl rfl (by decide) (by decide)⟩

/-- C10: update-by-identity preserves length and order, replaces the
element(s) whose id matches the updated record, leaves every other
position unchanged, adds nothing, and is the identity when no element
carries that id. -/
theorem c10_updateAnno_frame (annos : List Anno) (updated : Anno) :
    (updateAnno annos updated).length = annos.length ∧
    (∀ (i : Nat) (a : Anno), annos[i]? = some a → a.id = updated.id →
      (updateAnno annos updated)[i]? = some updated) ∧
    (∀ (i : Nat) (a : Anno), annos[i]? = some a → a.id ≠ updated.id →
      (updateAnno annos updated)[i]? = some a) ∧
    (∀ b, b ∈ updateAnno annos updated → b ∈ annos ∨ b = updated) ∧
    ((∀ a ∈ annos, a.id ≠ updated.id) → updateAnno annos updated = annos) := by
  refine ⟨?_, ?_, ?_, ?_, ?_⟩
  · simp [updateAnno]
  · intro i a hi ha
    simp [updateAnno, List.getElem?_map, hi, ha]
  · intro i a hi ha
    simp [updateAnno, List.getElem?_map, hi, ha]
  · intro b hb
    rcases List.mem_map.mp hb with ⟨a, ha, hfa⟩
    by_cases h : a.id = updated.id
    · right
      rw [← hfa]
      simp [h]
    · left
      rw [← hfa]
      simpa [h] using ha
  · intro h
    have : ∀ a ∈ annos, (if a.id = updated.id then updated else a) = a := by
      intro a ha
      simp [h a ha]
    calc updateAnno annos updated = annos.map id := List.map_congr_left this
    _ = annos := List.map_id annos

/-- Witness for C10: updating `"a"` in a two-element list. -/
theorem c10_updateAnno_frame_witness :
    (updateAnno
        [⟨"a", 1, 1, 1, 0, AnnoVariant.text ⟨"t", 12, "PT Sans", "#000000", 20, 5⟩⟩,
         ⟨"b", 1, 2, 2, 0, AnnoVariant.text ⟨"u", 12, "PT Sans", "#000000", 20, 5⟩⟩]
        ⟨"a", 1, 3, 3, 0, AnnoVariant.text ⟨"v", 12, "PT Sans", "#000000", 20, 5⟩⟩)[0]?
      = some ⟨"a", 1, 3, 3, 0, AnnoVariant.text ⟨"v", 12, "PT Sans", "#000000", 20, 5⟩⟩ ∧
    (updateAnno
        [⟨"a", 1, 1, 1, 0, AnnoVariant.text ⟨"t", 12, "PT Sans", "#000000", 20, 5⟩⟩,
         ⟨"b", 1, 2, 2, 0, AnnoVariant.text ⟨"u", 12, "PT Sans", "#000000", 20, 5⟩⟩]
        ⟨"a", 1, 3, 3, 0, AnnoVariant.text ⟨"v", 12, "PT Sans", "#000000", 20, 5⟩⟩)[1]?
      = some ⟨"b", 1, 2, 2, 0, AnnoVariant.text ⟨"u", 12, "PT Sans", "#000000", 20, 5⟩⟩ :=
  ⟨(c10_updateAnno_frame _ _).2.1 0 _ rfl rfl,
   (c10_updateAnno_frame _ _).2.2.1 1 _ rfl (by decide)⟩

/-- A value clamped as `max 0 (min v B)` with `B ≤ 99.9` lies in
`[0, 99.9]`. -/
theorem clamp99_mem (v B : ℚ) (hB : B ≤ 99.9) :
    0 ≤ max 0 (min v B) ∧ max 0 (min v B) ≤ 99.9 :=
  ⟨le_max_left _ _, max_le (by norm_num) (le_trans (min_le_right _ _) hB)⟩

/-- C5: the grab offset captured at pointer-down is the
percentage-space vector from the annotation's corner to the pointer,
and a subsequent move to the pointer-down point displaced by `(dx, dy)`
pixels puts the corner at the start position moved by exactly
`(dx/W·100, dy/H·100)` percentage points, clamped to `[0, 99.9]`. -/
theorem c5_drag_by_delta (a cur : Anno) (downX downY dx dy rectLeft rectTop rectW rectH : ℚ) :
    dragStartOffsetOf a downX downY rectLeft rectTop rectW rectH
      = ⟨(downX - rectLeft) / rectW * 100 - a.x, (downY - rectTop) / rectH * 100 - a.y⟩ ∧
    (handleDragMove cur (dragStartOffsetOf a downX downY rectLeft rectTop rectW rectH)
        (downX + dx) (downY + dy) rectLeft rectTop rectW rectH).x
      = max 0 (min (a.x + dx / rectW * 100) 99.9) ∧
    (handleDragMove cur (dragStartOffsetOf a downX downY rectLeft rectTop rectW rectH)
        (downX + dx) (downY + dy) rectLeft rectTop rectW rectH).y
      = max 0 (min (a.y + dy / rectH * 100) 99.9) := by
  refine ⟨rfl, ?_, ?_⟩
  · have h : (downX + dx - rectLeft) / rectW * 100
        - ((downX - rectLeft) / rectW * 100 - a.x) = a.x + dx / rectW * 100 := by
      ring
    simp only [handleDragMove, dragStartOffsetOf]
    rw [h]
  · have h : (downY + dy - rectTop) / rectH * 100
        - ((downY - rectTop) / rectH * 100 - a.y) = a.y + dy / rectH * 100 := by
      ring
    simp only [handleDragMove, dragStartOffsetOf]
    rw [h]

/-- C3: after any drag-move update, and after any resize-move update
whose captured page extent is positive (the snapshot is only taken on a
rendered page), the annotation's `x` and `y` lie in `[0, 99.9]`. -/
theorem c3_clamp_invariant (cur : Anno) (off : DragOffset)
    (clientX clientY rectLeft rectTop rectW rectH : ℚ)
    (st : ResizeState) (rClientX rClientY : ℚ)
    (hW : 0 < st.initialPageW) (hH : 0 < st.initialPageH) :
    (0 ≤ (handleDragMove cur off clientX clientY rectLeft rectTop rectW rectH).x ∧
     (handleDragMove cur off clientX clientY rectLeft rectTop rectW rectH).x ≤ 99.9 ∧
     0 ≤ (handleDragMove cur off clientX clientY rectLeft rectTop rectW rectH).y ∧
     (handleDragMove cur off clientX clientY rectLeft rectTop rectW rectH).y ≤ 99.9) ∧
    (0 ≤ (handleResizeMouseMove st rClientX rClientY cur).x ∧
     (handleResizeMouseMove st rClientX rClientY cur).x ≤ 99.9 ∧
     0 ≤ (handleResizeMouseMove st rClientX rClientY cur).y ∧
     (handleResizeMouseMove st rClientX rClientY cur).y ≤ 99.9) := by
  constructor
  · simp only [handleDragMove]
    have hx := clamp99_mem ((clientX - rectLeft) / rectW * 100 - off.x) 99.9 le_rfl
    have hy := clamp99_mem ((clientY - rectTop) / rectH * 100 - off.y) 99.9 le_rfl
    exact ⟨hx.1, hx.2, hy.1, hy.2⟩
  · simp only [handleResizeMouseMove]
    have hw20 : (0 : ℚ) ≤ max (if st.handle.hasLeft then
        st.initialPixelWidth - (rClientX - st.startX) else
        if st.handle.hasRight then st.initialPixelWidth + (rClientX - st.startX)
        else st.initialPixelWidth) 20 := le_trans (by norm_num) (le_max_right _ _)
    have hh20 : (0 : ℚ) ≤ max (if st.handle.hasTop then
        st.initialPixelHeight - (rClientY - st.startY) else
        if st.handle.hasBottom then st.initialPixelHeight + (rClientY - st.startY)
        else st.initialPixelHeight) 20 := le_trans (by norm_num) (le_max_right _ _)
    have hBx : 99.9 - (max (if st.handle.hasLeft then
        st.initialPixelWidth - (rClientX - st.startX) else
        if st.handle.hasRight then st.initialPixelWidth + (rClientX - st.startX)
        else st.initialPixelWidth) 20) / st.initialPageW * 100 ≤ 99.9 := by
      have : (0 : ℚ) ≤ (max (if st.handle.hasLeft then
          st.initialPixelWidth - (rClientX - st.startX) else
          if st.handle.hasRight then st.initialPixelWidth + (rClientX - st.startX)
          else st.initialPixelWidth) 20) / st.initialPageW * 100 :=
        mul_nonneg (div_nonneg hw20 hW.le) (by norm_num)
      linarith
    have hBy : 99.9 - (max (if st.handle.hasTop then
        st.initialPixelHeight - (rClientY - st.startY) else
        if st.handle.hasBottom then st.initialPixelHeight + (rClientY - st.startY)
        else st.initialPixelHeight) 20) / st.initialPageH * 100 ≤ 99.9 := by
      have : (0 : ℚ) ≤ (max (if st.handle.hasTop then
          st.initialPixelHeight - (rClientY - st.startY) else
          if st.handle.hasBottom then st.initialPixelHeight + (rClientY - st.startY)
          else st.initialPixelHeight) 20) / st.initialPageH * 100 :=
        mul_nonneg (div_nonneg hh20 hH.le) (by norm_num)
      linarith
    have hx := clamp99_mem (if st.handle.hasLeft then
        st.initialXPercent + (rClientX - st.startX) / st.initialPageW * 100
        else st.initialXPercent) _ hBx
    have hy := clamp99_mem (if st.handle.hasTop then
        st.initialYPercent + (rClientY - st.startY) / st.initialPageH * 100
        else st.initialYPercent) _ hBy
    exact ⟨hx.1, hx.2, hy.1, hy.2⟩

/-- Witness for C3 at a concrete drag and a concrete bottom-right
resize on a 100×100 surface. -/
theorem c3_clamp_invariant_witness :
    (0 ≤ (handleDragMove
        (⟨"a", 1, 50, 50, 0, AnnoVariant.image ⟨"s", "", "30.00%", "30.00%"⟩⟩ : Anno)
        ⟨5, 5⟩ 250 250 0 0 100 100).x ∧
     (handleDragMove
        (⟨"a", 1, 50, 50, 0, AnnoVariant.image ⟨"s", "", "30.00%", "30.00%"⟩⟩ : Anno)
        ⟨5, 5⟩ 250 250 0 0 100 100).x ≤ 99.9) ∧
    (0 ≤ (handleResizeMouseMove
        ⟨ResizeHandleType.bottomRight, 100, 100, 0, 0, 30, 30, 50, 50⟩ 60 0
        (⟨"a", 1, 50, 50, 0, AnnoVariant.image ⟨"s", "", "30.00%", "30.00%"⟩⟩ : Anno)).x ∧
     (handleResizeMouseMove
        ⟨ResizeHandleType.bottomRight, 100, 100, 0, 0, 30, 30, 50, 50⟩ 60 0
        (⟨"a", 1, 50, 50, 0, AnnoVariant.image ⟨"s", "", "30.00%", "30.00%"⟩⟩ : Anno)).x ≤ 99.9) := by
  have h := c3_clamp_invariant
    (⟨"a", 1, 50, 50, 0, AnnoVariant.image ⟨"s", "", "30.00%", "30.00%"⟩⟩ : Anno)
    ⟨5, 5⟩ 250 250 0 0 100 100
    ⟨ResizeHandleType.bottomRight, 100, 100, 0, 0, 30, 30, 50, 50⟩ 60 0
    (by norm_num) (by norm_num)
  exact ⟨⟨h.1.1, h.1.2.1⟩, ⟨h.2.1, h.2.2.1⟩⟩

/-- C7: with a tool active on a rendered page, a click whose percentage
position falls outside `[0,100]` on either axis adds nothing (the store
is unchanged), and otherwise exactly the default text/image record at
the clamped click position is appended. -/
theorem c7_placement (s : AppState) (tool : Tool)
    (clientX clientY rectLeft rectTop pageW pageH : ℚ)
    (curPage : Nat) (newId : String) (imgSrc : String)
    (hW : 0 < pageW) (hH : 0 < pageH) :
    (((clientX - rectLeft) / pageW * 100 < 0 ∨ 100 < (clientX - rectLeft) / pageW * 100 ∨
      (clientY - rectTop) / pageH * 100 < 0 ∨ 100 < (clientY - rectTop) / pageH * 100) →
      handleViewerClick (some tool) clientX clientY rectLeft rectTop pageW pageH
        curPage newId imgSrc = none ∧
      placeClick s (some tool) clientX clientY rectLeft rectTop pageW pageH
        curPage newId imgSrc = s) ∧
    (0 ≤ (clientX - rectLeft) / pageW * 100 → (clientX - rectLeft) / pageW * 100 ≤ 100 →
     0 ≤ (clientY - rectTop) / pageH * 100 → (clientY - rectTop) / pageH * 100 ≤ 100 →
      (tool = Tool.text →
        handleViewerClick (some tool) clientX clientY rectLeft rectTop pageW pageH
            curPage newId imgSrc
          = some (defaultTextRecord newId curPage ((clientX - rectLeft) / pageW * 100)
              ((clientY - rectTop) / pageH * 100)) ∧
        placeClick s (some tool) clientX clientY rectLeft rectTop pageW pageH
            curPage newId imgSrc
          = addAnno s (defaultTextRecord newId curPage ((clientX - rectLeft) / pageW * 100)
              ((clientY - rectTop) / pageH * 100))) ∧
      (tool = Tool.image →
        handleViewerClick (some tool) clientX clientY rectLeft rectTop pageW pageH
            curPage newId imgSrc
          = some (defaultImageRecord newId curPage ((clientX - rectLeft) / pageW * 100)
              ((clientY - rectTop) / pageH * 100) imgSrc) ∧
        placeClick s (some tool) clientX clientY rectLeft rectTop pageW pageH
            curPage newId imgSrc
          = addAnno s (defaultImageRecord newId curPage ((clientX - rectLeft) / pageW * 100)
              ((clientY - rectTop) / pageH * 100) imgSrc))) := by
  have hguard : ¬((some tool).isNone = true ∨ pageW = 0 ∨ pageH = 0) := by
    simp [hW.ne', hH.ne']
  constructor
  · intro hout
    have hv : handleViewerClick (some tool) clientX clientY rectLeft rectTop pageW pageH
        curPage newId imgSrc = none := by
      unfold handleViewerClick
      rw [if_neg hguard]
      simp only
      rw [if_pos hout]
    refine ⟨hv, ?_⟩
    unfold placeClick
    rw [hv]
  · intro hx0 hx1 hy0 hy1
    have hin : ¬((clientX - rectLeft) / pageW * 100 < 0 ∨
        100 < (clientX - rectLeft) / pageW * 100 ∨
        (clientY - rectTop) / pageH * 100 < 0 ∨
        100 < (clientY - rectTop) / pageH * 100) := by
      push_neg
      exact ⟨hx0, hx1, hy0, hy1⟩
    constructor
    · intro ht
      subst ht
      have hv : handleViewerClick (some Tool.text) clientX clientY rectLeft rectTop pageW pageH
          curPage newId imgSrc
          = some (defaultTextRecord newId curPage ((clientX - rectLeft) / pageW * 100)
              ((clientY - rectTop) / pageH * 100)) := by
        unfold handleViewerClick
        rw [if_neg hguard]
        simp only
        rw [if_neg hin]
      refine ⟨hv, ?_⟩
      unfold placeClick
      rw [hv]
    · intro ht
      subst ht
      have hv : handleViewerClick (some Tool.image) clientX clientY rectLeft rectTop pageW pageH
          curPage newId imgSrc
          = some (defaultImageRecord newId curPage ((clientX - rectLeft) / pageW * 100)
              ((clientY - rectTop) / pageH * 100) imgSrc) := by
        unfold handleViewerClick
        rw [if_neg hguard]
        simp only
        rw [if_neg hin]
      refine ⟨hv, ?_⟩
      unfold placeClick
      rw [hv]

/-- Witness for C7: an inside click with the text tool on a 200×100
surface, and an outside click that is rejected. -/
theorem c7_placement_witness :
    handleViewerClick (some Tool.text) 150 90 0 0 200 100 1 "id1" "x"
      = some (defaultTextRecord "id1" 1 ((150 - 0) / 200 * 100) ((90 - 0) / 100 * 100)) ∧
    placeClick ⟨[], none⟩ (some Tool.text) 150 90 0 0 200 100 1 "id1" "x"
      = addAnno ⟨[], none⟩
          (defaultTextRecord "id1" 1 ((150 - 0) / 200 * 100) ((90 - 0) / 100 * 100)) ∧
    handleViewerClick (some Tool.text) 250 90 0 0 200 100 1 "id1" "x" = none := by
  have hin := (c7_placement ⟨[], none⟩ Tool.text 150 90 0 0 200 100 1 "id1" "x"
    (by norm_num) (by norm_num)).2 (by norm_num) (by norm_num) (by norm_num) (by norm_num)
  have hout := (c7_placement ⟨[], none⟩ Tool.text 250 90 0 0 200 100 1 "id1" "x"
    (by norm_num) (by norm_num)).1 (by norm_num)
  exact ⟨(hin.1 rfl).1, (hin.1 rfl).2, hout.1⟩

/-- Fact: `"bottomRight".includes('Right')` is true. -/
theorem hasRight_bottomRight : ResizeHandleType.bottomRight.hasRight = true := by decide

/-- Fact: `"bottomRight".includes('Left')` is false. -/
theorem hasLeft_bottomRight : ResizeHandleType.bottomRight.hasLeft = false := by decide

/-- Fact: `"bottomRight".includes('bottom')` is true. -/
theorem hasBottom_bottomRight : ResizeHandleType.bottomRight.hasBottom = true := by decide

/-- Fact: `"bottomRight".includes('top')` is false. -/
theorem hasTop_bottomRight : ResizeHandleType.bottomRight.hasTop = false := by decide

/-- Fact: `"topLeft".includes('Right')` is false. -/
theorem hasRight_topLeft : ResizeHandleType.topLeft.hasRight = false := by decide

/-- Fact: `"topLeft".includes('Left')` is true. -/
theorem hasLeft_topLeft : ResizeHandleType.topLeft.hasLeft = true := by decide

/-- Fact: `"topLeft".includes('bottom')` is false. -/
theorem hasBottom_topLeft : ResizeHandleType.topLeft.hasBottom = false := by decide

/-- Fact: `"topLeft".includes('top')` is true. -/
theorem hasTop_topLeft : ResizeHandleType.topLeft.hasTop = true := by decide

/-- Fact: `parseFloat("25%")` is 25. -/
theorem parseFloat_25pct : parseFloat? "25%" = some 25 := by
  show floatValue? (parseFloatParts "25%") = some 25
  rw [show parseFloatParts "25%" = ⟨false, ['2', '5'], [], false, []⟩ from by decide]
  simp [floatValue?]
  rw [show digitsToNat ['2', '5'] = 25 from by decide,
      show digitsToNat [] = 0 from by decide]
  norm_num

/-- Fact: `parseFloat("10px")` is 10. -/
theorem parseFloat_10px : parseFloat? "10px" = some 10 := by
  show floatValue? (parseFloatParts "10px") = some 10
  rw [show parseFloatParts "10px" = ⟨false, ['1', '0'], [], false, []⟩ from by decide]
  simp [floatValue?]
  rw [show digitsToNat ['1', '0'] = 10 from by decide,
      show digitsToNat [] = 0 from by decide]
  norm_num

/-- Fact: `parseFloat("2em")` is 2. -/
theorem parseFloat_2em : parseFloat? "2em" = some 2 := by
  show floatValue? (parseFloatParts "2em") = some 2
  rw [show parseFloatParts "2em" = ⟨false, ['2'], [], false, []⟩ from by decide]
  simp [floatValue?]
  rw [show digitsToNat ['2'] = 2 from by decide,
      show digitsToNat [] = 0 from by decide]
  norm_num

/-- Fact: `parseFloat("abc")` is `NaN`. -/
theorem parseFloat_abc : parseFloat? "abc" = none := by
  show floatValue? (parseFloatParts "abc") = none
  rw [show parseFloatParts "abc" = ⟨false, [], [], false, []⟩ from by decide]
  simp [floatValue?]

/-- Fact: `parseFloat("abcpx")` is `NaN`. -/
theorem parseFloat_abcpx : parseFloat? "abcpx" = none := by
  show floatValue? (parseFloatParts "abcpx") = none
  rw [show parseFloatParts "abcpx" = ⟨false, [], [], false, []⟩ from by decide]
  simp [floatValue?]

/-- C4 counterexample, both halves of the claim. First: a bottom-right
resize that grows the box past the right edge — snapshot 100×100 page,
30×30 pixel box at `(50%, 50%)`, pointer moved 60px right — where the
far-edge re-clamp moves `x` from 50 to 9.9, so a bottomRight resize
does not always leave `x` unchanged. Second: a topLeft resize with zero
horizontal pointer delta — same box at `(50%, 10%)`, pointer moved
(0, 5) — where `x` stays 50, so a topLeft resize does not always
change `x`. -/
theorem c4_resize_frame_cex :
    ((handleResizeMouseMove ⟨ResizeHandleType.bottomRight, 100, 100, 0, 0, 30, 30, 50, 50⟩ 60 0
       (⟨"a", 1, 50, 50, 0, AnnoVariant.image ⟨"s", "", "30.00%", "30.00%"⟩⟩ : Anno)).x = 9.9 ∧
     (9.9 : ℚ) ≠ 50) ∧
    (handleResizeMouseMove ⟨ResizeHandleType.topLeft, 100, 100, 0, 0, 30, 30, 50, 10⟩ 0 5
      (⟨"a", 1, 50, 10, 0, AnnoVariant.image ⟨"s", "", "30.00%", "30.00%"⟩⟩ : Anno)).x = 50 := by
  refine ⟨⟨?_, by norm_num⟩, ?_⟩
  · simp only [handleResizeMouseMove, hasRight_bottomRight, hasLeft_bottomRight,
      hasBottom_bottomRight, hasTop_bottomRight]
    norm_num [max_def, min_def]
  · simp only [handleResizeMouseMove, hasRight_topLeft, hasLeft_topLeft,
      hasBottom_topLeft, hasTop_topLeft]
    norm_num [max_def, min_def]

/-- C4 (amended): a bottomRight resize leaves `x`, `y` (and id, page,
rotation) unchanged — for any pointer delta, growing or shrinking —
whenever the re-clamp is not binding, i.e. the starting percentages are
nonnegative and the resized box's far edge stays within `99.9%`; a
topLeft resize changes `x` (resp. `y`) whenever the pointer delta on
that axis is nonzero and the shifted position stays within the clamp
bounds. -/
theorem c4_resize_frame (pageW pageH sx sy w0 h0 x0 y0 cx cy : ℚ) (cur : Anno)
    (hpW : 0 < pageW) (hpH : 0 < pageH)
    (hcx : cur.x = x0) (hcy : cur.y = y0) :
    (0 ≤ x0 → x0 ≤ 99.9 - max (w0 + (cx - sx)) 20 / pageW * 100 →
     0 ≤ y0 → y0 ≤ 99.9 - max (h0 + (cy - sy)) 20 / pageH * 100 →
      (handleResizeMouseMove ⟨ResizeHandleType.bottomRight, pageW, pageH, sx, sy, w0, h0, x0, y0⟩
          cx cy cur).x = cur.x ∧
      (handleResizeMouseMove ⟨ResizeHandleType.bottomRight, pageW, pageH, sx, sy, w0, h0, x0, y0⟩
          cx cy cur).y = cur.y ∧
      (handleResizeMouseMove ⟨ResizeHandleType.bottomRight, pageW, pageH, sx, sy, w0, h0, x0, y0⟩
          cx cy cur).id = cur.id ∧
      (handleResizeMouseMove ⟨ResizeHandleType.bottomRight, pageW, pageH, sx, sy, w0, h0, x0, y0⟩
          cx cy cur).page = cur.page ∧
      (handleResizeMouseMove ⟨ResizeHandleType.bottomRight, pageW, pageH, sx, sy, w0, h0, x0, y0⟩
          cx cy cur).rotation = cur.rotation) ∧
    (cx - sx ≠ 0 → 0 ≤ x0 + (cx - sx) / pageW * 100 →
     x0 + (cx - sx) / pageW * 100 ≤ 99.9 - max (w0 - (cx - sx)) 20 / pageW * 100 →
      (handleResizeMouseMove ⟨ResizeHandleType.topLeft, pageW, pageH, sx, sy, w0, h0, x0, y0⟩
          cx cy cur).x ≠ cur.x) ∧
    (cy - sy ≠ 0 → 0 ≤ y0 + (cy - sy) / pageH * 100 →
     y0 + (cy - sy) / pageH * 100 ≤ 99.9 - max (h0 - (cy - sy)) 20 / pageH * 100 →
      (handleResizeMouseMove ⟨ResizeHandleType.topLeft, pageW, pageH, sx, sy, w0, h0, x0, y0⟩
          cx cy cur).y ≠ cur.y) := by
  refine ⟨?_, ?_, ?_⟩
  · intro hx0 hxB hy0 hyB
    simp only [handleResizeMouseMove, hasRight_bottomRight, hasLeft_bottomRight,
      hasBottom_bottomRight, hasTop_bottomRight, Bool.false_eq_true, if_false, if_true]
    refine ⟨?_, ?_, trivial, trivial, trivial⟩
    · rw [hcx, min_eq_left hxB, max_eq_right hx0]
    · rw [hcy, min_eq_left hyB, max_eq_right hy0]
  · intro hdx hxT0 hxT
    have ht : (cx - sx) / pageW * 100 ≠ 0 :=
      mul_ne_zero (div_ne_zero hdx hpW.ne') (by norm_num)
    simp only [handleResizeMouseMove, hasRight_topLeft, hasLeft_topLeft,
      hasBottom_topLeft, hasTop_topLeft, Bool.false_eq_true, if_false, if_true]
    rw [hcx, min_eq_left hxT, max_eq_right hxT0]
    intro he
    exact ht (by linarith)
  · intro hdy hyT0 hyT
    have ht : (cy - sy) / pageH * 100 ≠ 0 :=
      mul_ne_zero (div_ne_zero hdy hpH.ne') (by norm_num)
    simp only [handleResizeMouseMove, hasRight_topLeft, hasLeft_topLeft,
      hasBottom_topLeft, hasTop_topLeft, Bool.false_eq_true, if_false, if_true]
    rw [hcy, min_eq_left hyT, max_eq_right hyT0]
    intro he
    exact ht (by linarith)

/-- Witness for C4 (amended): 1000×1000 page, 100×100 box at
`(10%, 10%)`, pointer moved (10, 10). -/
theorem c4_resize_frame_witness :
    (handleResizeMouseMove ⟨ResizeHandleType.bottomRight, 1000, 1000, 0, 0, 100, 100, 10, 10⟩
        10 10 (⟨"a", 1, 10, 10, 0, AnnoVariant.image ⟨"s", "", "10.00%", "10.00%"⟩⟩ : Anno)).x
      = (10 : ℚ) ∧
    (handleResizeMouseMove ⟨ResizeHandleType.topLeft, 1000, 1000, 0, 0, 100, 100, 10, 10⟩
        10 10 (⟨"a", 1, 10, 10, 0, AnnoVariant.image ⟨"s", "", "10.00%", "10.00%"⟩⟩ : Anno)).x
      ≠ (10 : ℚ) := by
  have h := c4_resize_frame 1000 1000 0 0 100 100 10 10 10 10
    (⟨"a", 1, 10, 10, 0, AnnoVariant.image ⟨"s", "", "10.00%", "10.00%"⟩⟩ : Anno)
    (by norm_num) (by norm_num) rfl rfl
  exact ⟨(h.1 (by norm_num) (by rw [max_eq_left (by norm_num)]; norm_num)
      (by norm_num) (by rw [max_eq_left (by norm_num)]; norm_num)).1,
    h.2.1 (by norm_num) (by norm_num) (by rw [max_eq_left (by norm_num)]; norm_num)⟩

/-- C2 counterexample: `"abcpx"` is unparseable (`parseFloat` is `NaN`),
yet the width resolver returns the fixed 100-point default with no
report, not 25% of the page width (50 at reference 200). -/
theorem c2_fallback_cex :
    parseFloat? "abcpx" = none ∧
    processImgWidth "abcpx" 200 = (100, false) ∧
    (100 : ℚ) ≠ 25 / 100 * 200 := by
  refine ⟨parseFloat_abcpx, ?_, by norm_num⟩
  simp [processImgWidth,
    show strEndsWith "abcpx" "%" = false from by decide,
    show strEndsWith "abcpx" "px" = true from by decide,
    parseFloat_abcpx]

/-- C2 (amended): the suffix rows resolve as documented (`%` scales the
reference, `px`/`pt`/unitless are 1:1, `em` is ×12), and the spec's test
values hold; the unparseable fallback depends on the suffix: no
recognized suffix gives the reported 25%-width/15%-height default, a
`%` suffix gives the same default silently, and a `px`, `pt` or `em` suffix
gives the fixed 100 (width) / 75 (height) silently. -/
theorem c2_unit_resolution :
    (∀ (s : String) (ref n : ℚ), strEndsWith s "%" = true → parseFloat? s = some n →
      processImgWidth s ref = (n / 100 * ref, false) ∧
      processImgHeight s ref = (n / 100 * ref, false)) ∧
    (∀ (s : String) (ref n : ℚ), strEndsWith s "%" = false → strEndsWith s "px" = true →
      parseFloat? s = some n →
      processImgWidth s ref = (n, false) ∧ processImgHeight s ref = (n, false)) ∧
    (∀ (s : String) (ref n : ℚ), strEndsWith s "%" = false → strEndsWith s "px" = false →
      strEndsWith s "pt" = true → parseFloat? s = some n →
      processImgWidth s ref = (n, false) ∧ processImgHeight s ref = (n, false)) ∧
    (∀ (s : String) (ref n : ℚ), strEndsWith s "%" = false → strEndsWith s "px" = false →
      strEndsWith s "pt" = false → strEndsWith s "em" = true → parseFloat? s = some n →
      processImgWidth s ref = (n * 12, false) ∧ processImgHeight s ref = (n * 12, false)) ∧
    (∀ (s : String) (ref n : ℚ), strEndsWith s "%" = false → strEndsWith s "px" = false →
      strEndsWith s "pt" = false → strEndsWith s "em" = false → parseFloat? s = some n →
      processImgWidth s ref = (n, false) ∧ processImgHeight s ref = (n, false)) ∧
    (∀ (s : String) (ref : ℚ), strEndsWith s "%" = false → strEndsWith s "px" = false →
      strEndsWith s "pt" = false → strEndsWith s "em" = false → parseFloat? s = none →
      processImgWidth s ref = (25 / 100 * ref, true) ∧
      processImgHeight s ref = (15 / 100 * ref, true)) ∧
    (∀ (s : String) (ref : ℚ), strEndsWith s "%" = true → parseFloat? s = none →
      processImgWidth s ref = (25 / 100 * ref, false) ∧
      processImgHeight s ref = (15 / 100 * ref, false)) ∧
    (∀ (s : String) (ref : ℚ), strEndsWith s "%" = false → strEndsWith s "px" = true →
      parseFloat? s = none →
      processImgWidth s ref = (100, false) ∧ processImgHeight s ref = (75, false)) ∧
    (∀ (s : String) (ref : ℚ), strEndsWith s "%" = false → strEndsWith s "px" = false →
      strEndsWith s "pt" = true → parseFloat? s = none →
      processImgWidth s ref = (100, false) ∧ processImgHeight s ref = (75, false)) ∧
    (∀ (s : String) (ref : ℚ), strEndsWith s "%" = false → strEndsWith s "px" = false →
      strEndsWith s "pt" = false → strEndsWith s "em" = true → parseFloat? s = none →
      processImgWidth s ref = (100, false) ∧ processImgHeight s ref = (75, false)) ∧
    (processImgWidth "25%" 200 = (50, false) ∧
     processImgWidth "10px" 612 = (10, false) ∧
     processImgWidth "2em" 612 = (24, false) ∧
     processImgWidth "abc" 200 = (50, true) ∧
     processImgHeight "abc" 400 = (60, true)) := by
  refine ⟨?_, ?_, ?_, ?_, ?_, ?_, ?_, ?_, ?_, ?_, ?_, ?_, ?_, ?_, ?_⟩
  · intro s ref n h1 hp
    exact ⟨by simp [processImgWidth, h1, hp], by simp [processImgHeight, h1, hp]⟩
  · intro s ref n h1 h2 hp
    exact ⟨by simp [processImgWidth, h1, h2, hp], by simp [processImgHeight, h1, h2, hp]⟩
  · intro s ref n h1 h2 h3 hp
    exact ⟨by simp [processImgWidth, h1, h2, h3, hp], by simp [processImgHeight, h1, h2, h3, hp]⟩
  · intro s ref n h1 h2 h3 h4 hp
    exact ⟨by simp [processImgWidth, h1, h2, h3, h4, hp],
      by simp [processImgHeight, h1, h2, h3, h4, hp]⟩
  · intro s ref n h1 h2 h3 h4 hp
    exact ⟨by simp [processImgWidth, h1, h2, h3, h4, hp],
      by simp [processImgHeight, h1, h2, h3, h4, hp]⟩
  · intro s ref h1 h2 h3 h4 hp
    exact ⟨by simp [processImgWidth, h1, h2, h3, h4, hp],
      by simp [processImgHeight, h1, h2, h3, h4, hp]⟩
  · intro s ref h1 hp
    exact ⟨by simp [processImgWidth, h1, hp], by simp [processImgHeight, h1, hp]⟩
  · intro s ref h1 h2 hp
    exact ⟨by simp [processImgWidth, h1, h2, hp], by simp [processImgHeight, h1, h2, hp]⟩
  · intro s ref h1 h2 h3 hp
    exact ⟨by simp [processImgWidth, h1, h2, h3, hp],
      by simp [processImgHeight, h1, h2, h3, hp]⟩
  · intro s ref h1 h2 h3 h4 hp
    exact ⟨by simp [processImgWidth, h1, h2, h3, h4, hp],
      by simp [processImgHeight, h1, h2, h3, h4, hp]⟩
  · norm_num [processImgWidth, show strEndsWith "25%" "%" = true from by decide, parseFloat_25pct]
  · norm_num [processImgWidth, show strEndsWith "10px" "%" = false from by decide,
      show strEndsWith "10px" "px" = true from by decide, parseFloat_10px]
  · norm_num [processImgWidth, show strEndsWith "2em" "%" = false from by decide,
      show strEndsWith "2em" "px" = false from by decide,
      show strEndsWith "2em" "pt" = false from by decide,
      show strEndsWith "2em" "em" = true from by decide, parseFloat_2em]
  · norm_num [processImgWidth, show strEndsWith "abc" "%" = false from by decide,
      show strEndsWith "abc" "px" = false from by decide,
      show strEndsWith "abc" "pt" = false from by decide,
      show strEndsWith "abc" "em" = false from by decide, parseFloat_abc]
  · norm_num [processImgHeight, show strEndsWith "abc" "%" = false from by decide,
      show strEndsWith "abc" "px" = false from by decide,
      show strEndsWith "abc" "pt" = false from by decide,
      show strEndsWith "abc" "em" = false from by decide, parseFloat_abc]

/-- Witness for C2 (amended): the `%` row at `"25%"` against 200. -/
theorem c2_unit_resolution_witness :
    processImgWidth "25%" 200 = (25 / 100 * 200, false) ∧
    processImgHeight "25%" 200 = (25 / 100 * 200, false) :=
  c2_unit_resolution.1 "25%" 200 25 (by decide) parseFloat_25pct

/-- Concatenating two lists that each export without aborting exports
without aborting, to the concatenated instructions and reports. -/
theorem exportAnnos_append (fetchOk embedOk : String → Bool) (pageSize : Nat → ℚ × ℚ) :
    ∀ (l₁ l₂ : List Anno) (r₁ r₂ : List DrawInstr × List ExportWarn),
      exportAnnos fetchOk embedOk pageSize l₁ = Except.ok r₁ →
      exportAnnos fetchOk embedOk pageSize l₂ = Except.ok r₂ →
      exportAnnos fetchOk embedOk pageSize (l₁ ++ l₂)
        = Except.ok (r₁.1 ++ r₂.1, r₁.2 ++ r₂.2) := by
  intro l₁
  induction l₁ with
  | nil =>
    intro l₂ r₁ r₂ h₁ h₂
    have hr : ([], []) = r₁ := by
      injection h₁
    subst hr
    simpa using h₂
  | cons a rest ih =>
    intro l₂ r₁ r₂ h₁ h₂
    rcases hpa : perAnnoExport fetchOk embedOk (pageSize a.page).1 (pageSize a.page).2 a
      with e | ha'
    · simp only [exportAnnos, hpa] at h₁
      simp at h₁
    · rcases hre : exportAnnos fetchOk embedOk pageSize rest with e | rt
      · simp only [exportAnnos, hpa, hre] at h₁
        simp at h₁
      · simp only [exportAnnos, hpa, hre] at h₁
        injection h₁ with hr
        subst hr
        have ht := ih l₂ rt r₂ hre h₂
        simp only [List.cons_append, exportAnnos, List.append_eq, hpa]
        rw [ht]
        simp [List.append_assoc]

/-- In a list that exports without aborting, a member annotation's
successful draw instruction appears in the output. -/
theorem exportAnnos_contains (fetchOk embedOk : String → Bool) (pageSize : Nat → ℚ × ℚ) :
    ∀ (l : List Anno) (r : List DrawInstr × List ExportWarn),
      exportAnnos fetchOk embedOk pageSize l = Except.ok r →
      ∀ a ∈ l, ∀ (p : Option DrawInstr × List ExportWarn) (d : DrawInstr),
        perAnnoExport fetchOk embedOk (pageSize a.page).1 (pageSize a.page).2 a = Except.ok p →
        p.1 = some d → d ∈ r.1 := by
  intro l
  induction l with
  | nil =>
    intro r hr a ha
    cases ha
  | cons b rest ih =>
    intro r hr a ha p d hp hd
    rcases hpb : perAnnoExport fetchOk embedOk (pageSize b.page).1 (pageSize b.page).2 b
      with e | hb
    · simp only [exportAnnos, hpb] at hr
      simp at hr
    · rcases hre : exportAnnos fetchOk embedOk pageSize rest with e | rt
      · simp only [exportAnnos, hpb, hre] at hr
        simp at hr
      · simp only [exportAnnos, hpb, hre] at hr
        injection hr with hr'
        subst hr'
        rcases List.mem_cons.mp ha with h | h
        · subst h
          rw [hpb] at hp
          injection hp with hp'
          subst hp'
          simp [hd]
        · exact List.mem_append.mpr (Or.inr (ih rt hre a h p d hp hd))

/-- C8: an image annotation whose payload fetch/decode fails, whose
sniffed format is neither PNG nor JPEG, or whose embed fails yields no
draw instruction and a reported skip — never an abort — and, provided
every other annotation itself exports without aborting (`hok₁`, `hok₂`;
a malformed text color elsewhere fails the whole export instead), the
surrounding list still exports successfully to exactly the other
annotations' instructions plus the skip report, with every other
annotation's successful instruction present in the output. -/
theorem c8_export_skip (fetchOk embedOk : String → Bool) (pageSize : Nat → ℚ × ℚ)
    (l₁ l₂ : List Anno) (bad : Anno) (f : ImageFields)
    (r₁ r₂ : List DrawInstr × List ExportWarn)
    (hv : bad.variant = AnnoVariant.image f)
    (hfail : fetchOk f.src = false ∨ sniffImgFormat f.src = none ∨ embedOk f.src = false)
    (hok₁ : exportAnnos fetchOk embedOk pageSize l₁ = Except.ok r₁)
    (hok₂ : exportAnnos fetchOk embedOk pageSize l₂ = Except.ok r₂) :
    (perImageExport fetchOk embedOk (pageSize bad.page).1 (pageSize bad.page).2 bad f).1
      = none ∧
    (ExportWarn.unsupportedType bad.id
        ∈ (perImageExport fetchOk embedOk (pageSize bad.page).1 (pageSize bad.page).2 bad f).2 ∨
     ExportWarn.embedFail bad.id
        ∈ (perImageExport fetchOk embedOk (pageSize bad.page).1 (pageSize bad.page).2 bad f).2) ∧
    perAnnoExport fetchOk embedOk (pageSize bad.page).1 (pageSize bad.page).2 bad
      = Except.ok (perImageExport fetchOk embedOk (pageSize bad.page).1 (pageSize bad.page).2 bad f) ∧
    exportAnnos fetchOk embedOk pageSize (l₁ ++ bad :: l₂)
      = Except.ok (r₁.1 ++ r₂.1,
          r₁.2 ++ (perImageExport fetchOk embedOk (pageSize bad.page).1 (pageSize bad.page).2 bad f).2
            ++ r₂.2) ∧
    (∀ a ∈ l₁ ++ l₂, ∀ (p : Option DrawInstr × List ExportWarn) (d : DrawInstr),
      perAnnoExport fetchOk embedOk (pageSize a.page).1 (pageSize a.page).2 a = Except.ok p →
      p.1 = some d → d ∈ r₁.1 ++ r₂.1) := by
  have hskip : (perImageExport fetchOk embedOk (pageSize bad.page).1 (pageSize bad.page).2 bad f).1
        = none ∧
      (ExportWarn.unsupportedType bad.id
          ∈ (perImageExport fetchOk embedOk (pageSize bad.page).1 (pageSize bad.page).2 bad f).2 ∨
       ExportWarn.embedFail bad.id
          ∈ (perImageExport fetchOk embedOk (pageSize bad.page).1 (pageSize bad.page).2 bad f).2) := by
    by_cases hf : fetchOk f.src = true
    · rcases hfail with h | h | h
      · rw [hf] at h
        cases h
      · exact ⟨by simp [perImageExport, hf, h], Or.inl (by simp [perImageExport, hf, h])⟩
      · cases hsn : sniffImgFormat f.src with
        | none =>
          exact ⟨by simp [perImageExport, hf, hsn],
            Or.inl (by simp [perImageExport, hf, hsn])⟩
        | some fmt =>
          exact ⟨by simp [perImageExport, hf, hsn, h],
            Or.inr (by simp [perImageExport, hf, hsn, h])⟩
    · have hf' : fetchOk f.src = false := by simpa using hf
      exact ⟨by simp [perImageExport, hf'], Or.inr (by simp [perImageExport, hf'])⟩
  have hpa : perAnnoExport fetchOk embedOk (pageSize bad.page).1 (pageSize bad.page).2 bad
      = Except.ok (perImageExport fetchOk embedOk (pageSize bad.page).1 (pageSize bad.page).2 bad f) := by
    simp [perAnnoExport, hv]
  have hmid : exportAnnos fetchOk embedOk pageSize (bad :: l₂)
      = Except.ok
          ((perImageExport fetchOk embedOk (pageSize bad.page).1 (pageSize bad.page).2 bad f).1.toList
              ++ r₂.1,
           (perImageExport fetchOk embedOk (pageSize bad.page).1 (pageSize bad.page).2 bad f).2
              ++ r₂.2) := by
    simp only [exportAnnos, hpa, hok₂]
  have hall := exportAnnos_append fetchOk embedOk pageSize l₁ (bad :: l₂) r₁ _ hok₁ hmid
  refine ⟨hskip.1, hskip.2, hpa, ?_, ?_⟩
  · rw [hall]
    simp [hskip.1, List.append_assoc]
  · intro a ha p d hp hd
    rcases List.mem_append.mp ha with h | h
    · exact List.mem_append.mpr
        (Or.inl (exportAnnos_contains fetchOk embedOk pageSize l₁ r₁ hok₁ a h p d hp hd))
    · exact List.mem_append.mpr
        (Or.inr (exportAnnos_contains fetchOk embedOk pageSize l₂ r₂ hok₂ a h p d hp hd))

/-- Witness for C8: an image annotation with an unsupported payload
format (a PDF data URI) is skipped without aborting, and the export of
the list around it succeeds with the others' (here empty) output plus
its report. -/
theorem c8_export_skip_witness :
    (perImageExport (fun _ => true) (fun _ => true) 612 792
      (⟨"b1", 1, 20, 20, 0,
        AnnoVariant.image ⟨"data:application/pdf;base64,AA", "att", "25%", "15%"⟩⟩ : Anno)
      ⟨"data:application/pdf;base64,AA", "att", "25%", "15%"⟩).1 = none ∧
    perAnnoExport (fun _ => true) (fun _ => true) 612 792
      (⟨"b1", 1, 20, 20, 0,
        AnnoVariant.image ⟨"data:application/pdf;base64,AA", "att", "25%", "15%"⟩⟩ : Anno)
      = Except.ok (perImageExport (fun _ => true) (fun _ => true) 612 792
          (⟨"b1", 1, 20, 20, 0,
            AnnoVariant.image ⟨"data:application/pdf;base64,AA", "att", "25%", "15%"⟩⟩ : Anno)
          ⟨"data:application/pdf;base64,AA", "att", "25%", "15%"⟩) ∧
    exportAnnos (fun _ => true) (fun _ => true) (fun _ => (612, 792))
      (([] : List Anno) ++ (⟨"b1", 1, 20, 20, 0,
          AnnoVariant.image ⟨"data:application/pdf;base64,AA", "att", "25%", "15%"⟩⟩ : Anno) :: [])
      = Except.ok (([] : List DrawInstr) ++ [],
          ([] : List ExportWarn)
            ++ (perImageExport (fun _ => true) (fun _ => true) 612 792
                (⟨"b1", 1, 20, 20, 0,
                  AnnoVariant.image ⟨"data:application/pdf;base64,AA", "att", "25%", "15%"⟩⟩ : Anno)
                ⟨"data:application/pdf;base64,AA", "att", "25%", "15%"⟩).2 ++ []) := by
  have h := c8_export_skip (fun _ => true) (fun _ => true) (fun _ => (612, 792))
    ([] : List Anno) ([] : List Anno)
    (⟨"b1", 1, 20, 20, 0,
      AnnoVariant.image ⟨"data:application/pdf;base64,AA", "att", "25%", "15%"⟩⟩ : Anno)
    ⟨"data:application/pdf;base64,AA", "att", "25%", "15%"⟩
    ([], []) ([], []) rfl (Or.inr (Or.inl (by decide))) rfl rfl
  exact ⟨h.1, h.2.2.1, h.2.2.2.1⟩

end PdfEditor
